import Mathlib

/-!
Shallow embedding of the jira-mcp-server repository.

Source files embedded:
- `jira_models.py`  — the dataclasses `User`, `Status`, `Priority`, `IssueType`,
  `Fields`, `JiraTicket`.
- `jira_service.py` — `JiraService._parse_ticket`, `search_tickets` and the canned
  query methods, `get_available_transitions`, `change_ticket_status`.
- `http_jira_server.py` — the route handlers `search_tickets` and
  `change_ticket_status`, and the tool inventory of the `/` JSON-RPC endpoint.
- `mcp_jira_server.py` — the tool inventory of `handle_list_tools` and the dispatch
  names of `handle_call_tool`.

Conventions of the embedding:
- Python `None` becomes `Option.none`; raw upstream JSON payloads are typed records
  of `Option` fields mirroring the keys the source reads with `.get`.
- Python exceptions become `Except PyError`; `requests` HTTP failures raised by
  `raise_for_status` are abstracted as the failing status code.
- Python's `str.strip` and `str.lower` are re-implemented structurally
  (`pyStrip`, `pyLower`); case-folding is modelled on the ASCII range, which is the
  range all names in this workflow vocabulary use.
- Upstream I/O is passed in explicitly: search-style calls take an oracle
  `String → Int → Except Nat (List RawIssue)` and record the calls actually issued,
  so "no upstream call is attempted" is the statement that the recorded call list
  is empty.
-/

/-- Python exception kinds that the embedded code can raise.
`valueError` carries `str(e)`; `httpStatusError` abstracts a
`requests.exceptions.HTTPError` raised by `raise_for_status` as the upstream
status code; `httpException` is FastAPI/Starlette's `HTTPException`
(street rendering `str(e)` is "code: detail"); `attributeError` is the
`AttributeError` raised by calling `.lower()` on `None`. -/
inductive PyError where
  | valueError (msg : String)
  | httpStatusError (code : Nat)
  | httpException (code : Nat) (detail : String)
  | attributeError
  deriving DecidableEq

/-- Removes leading characters satisfying `Char.isWhitespace`. -/
def dropLeadingWs : List Char → List Char
  | [] => []
  | c :: cs => if c.isWhitespace then dropLeadingWs cs else c :: cs

/-- Python `str.strip()`: whitespace removed from both ends. -/
def pyStrip (s : String) : String :=
  String.mk ((dropLeadingWs ((dropLeadingWs s.data).reverse)).reverse)

/-- Python truthiness test `not s or not s.strip()` used by every validation
guard in `jira_service.py`. -/
def pyIsBlank (s : String) : Bool :=
  (s == "") || (pyStrip s == "")

/-- Python `str.lower()` (ASCII case folding, the range used by this code). -/
def pyLower (s : String) : String :=
  String.mk (s.data.map Char.toLower)

/-- `jira_models.User`. -/
structure User where
  display_name : Option String := none
  email_address : Option String := none
  deriving DecidableEq

/-- `jira_models.Status`. -/
structure Status where
  name : Option String := none
  description : Option String := none
  deriving DecidableEq

/-- `jira_models.Priority`. -/
structure Priority where
  name : Option String := none
  deriving DecidableEq

/-- `jira_models.IssueType`. -/
structure IssueType where
  name : Option String := none
  description : Option String := none
  deriving DecidableEq

/-- `jira_models.Fields`. -/
structure Fields where
  summary : Option String := none
  description : Option String := none
  status : Option Status := none
  priority : Option Priority := none
  issuetype : Option IssueType := none
  assignee : Option User := none
  reporter : Option User := none
  created : Option String := none
  updated : Option String := none
  deriving DecidableEq

/-- `jira_models.JiraTicket` (`self` kept as the source's field name). -/
structure JiraTicket where
  id : Option String := none
  key : Option String := none
  self : Option String := none
  fields : Option Fields := none
  deriving DecidableEq

/-- Raw upstream `status` sub-object as read by `_parse_ticket`. -/
structure RawStatus where
  name : Option String := none
  description : Option String := none
  deriving DecidableEq

/-- Raw upstream `priority` sub-object. -/
structure RawPriority where
  name : Option String := none
  deriving DecidableEq

/-- Raw upstream `issuetype` sub-object. -/
structure RawIssueType where
  name : Option String := none
  description : Option String := none
  deriving DecidableEq

/-- Raw upstream `assignee`/`reporter` sub-object (keys `displayName`,
`emailAddress`). -/
structure RawUser where
  displayName : Option String := none
  emailAddress : Option String := none
  deriving DecidableEq

/-- Raw upstream `fields` mapping: every sub-object the parser reads may be
absent or null (both `none`: the parser reads each with `fields_data.get`,
which returns `None` for a missing key as well as for a present null, and the
following truthiness guard treats both alike). -/
structure RawFields where
  summary : Option String := none
  description : Option String := none
  status : Option RawStatus := none
  priority : Option RawPriority := none
  issuetype : Option RawIssueType := none
  assignee : Option RawUser := none
  reporter : Option RawUser := none
  created : Option String := none
  updated : Option String := none
  deriving DecidableEq

/-- Raw upstream issue JSON as read by `_parse_ticket`
(`data.get("id"/"key"/"self"/"fields")`), covering the shapes whose `fields`
value is a dict or an absent key (`fields := none` models the absent key).
The shape with a present-null `fields` behaves differently in the source —
`data.get("fields", {})` only defaults a missing key — and is modelled
separately by `RawIssueJson` and `_parse_ticket_json` below. -/
structure RawIssue where
  id : Option String := none
  key : Option String := none
  self : Option String := none
  fields : Option RawFields := none
  deriving DecidableEq

/-- `JiraService._parse_ticket` (jira_service.py lines 189-243) on the
`RawIssue` shapes.  `data.get("fields", {})` defaults a *missing* `fields`
key to an empty dict, here the all-`none` `RawFields`; each
`if fields_data.get(...)` truthiness guard becomes a `match` on the `Option`
sub-object.  On these shapes the Python body has no `raise` and no fallible
call, which the total return type mirrors; the present-null `fields` shape,
which does raise, is `_parse_ticket_json` below. -/
def _parse_ticket (data : RawIssue) : JiraTicket :=
  let fields_data := data.fields.getD {}
  let status : Option Status :=
    match fields_data.status with
    | some s => some { name := s.name, description := s.description }
    | none => none
  let priority : Option Priority :=
    match fields_data.priority with
    | some p => some { name := p.name }
    | none => none
  let issuetype : Option IssueType :=
    match fields_data.issuetype with
    | some i => some { name := i.name, description := i.description }
    | none => none
  let assignee : Option User :=
    match fields_data.assignee with
    | some a => some { display_name := a.displayName, email_address := a.emailAddress }
    | none => none
  let reporter : Option User :=
    match fields_data.reporter with
    | some r => some { display_name := r.displayName, email_address := r.emailAddress }
    | none => none
  let fields : Fields :=
    { summary := fields_data.summary
      description := fields_data.description
      status := status
      priority := priority
      issuetype := issuetype
      assignee := assignee
      reporter := reporter
      created := fields_data.created
      updated := fields_data.updated }
  { id := data.id, key := data.key, self := data.self, fields := some fields }

/-- Raw upstream issue JSON distinguishing the three shapes of its "fields"
value: absent key (`none`), present null (`some none`), present dict
(`some (some rf)`). -/
structure RawIssueJson where
  id : Option String := none
  key : Option String := none
  self : Option String := none
  fields : Option (Option RawFields) := none
  deriving DecidableEq

/-- `JiraService._parse_ticket` over all "fields" shapes, including a present
null.  For `{"fields": null}`, `data.get("fields", {})` returns the null —
the default applies only to a missing key — and the first read on it,
`fields_data.get("status")` (jira_service.py line 195), raises
`AttributeError`.  The absent-key and dict shapes delegate to
`_parse_ticket`. -/
def _parse_ticket_json (data : RawIssueJson) : Except PyError JiraTicket :=
  match data.fields with
  | some none => .error .attributeError
  | some (some rf) =>
    .ok (_parse_ticket { id := data.id, key := data.key, self := data.self, fields := some rf })
  | none =>
    .ok (_parse_ticket { id := data.id, key := data.key, self := data.self, fields := none })

/-- Raw upstream `to` sub-object of a transition. -/
structure RawTo where
  name : Option String := none
  description : Option String := none
  deriving DecidableEq

/-- Raw upstream transition entry as read by `get_available_transitions`
(`transition.get("id"/"name"/"to")`; a missing `to` defaults to an empty dict). -/
structure RawTransition where
  id : Option String := none
  name : Option String := none
  toStatus : Option RawTo := none
  deriving DecidableEq

/-- The `to` dict that `get_available_transitions` builds. -/
structure TransitionTo where
  name : Option String := none
  description : Option String := none
  deriving DecidableEq

/-- The transition dict `{"id", "name", "to"}` built by
`get_available_transitions` (jira_service.py lines 117-124). -/
structure Transition where
  id : Option String := none
  name : Option String := none
  toStatus : TransitionTo := {}
  deriving DecidableEq

/-- One normalized transition entry: `transition.get("to", {}).get("name")`
becomes a bind on the optional `to` record, so a missing upstream field
defaults to `none`. -/
def parseTransition (t : RawTransition) : Transition :=
  { id := t.id
    name := t.name
    toStatus := { name := t.toStatus.bind (fun x => x.name),
                  description := t.toStatus.bind (fun x => x.description) } }

/-- `JiraService.get_available_transitions` (jira_service.py lines 100-125),
with the upstream `GET /issue/{key}/transitions` outcome passed in: an error
status (from `raise_for_status`) or the raw `transitions` array. -/
def get_available_transitions (ticket_key : String)
    (upstream : Except Nat (List RawTransition)) : Except PyError (List Transition) :=
  if pyIsBlank ticket_key then .error (.valueError ("ticket_key is required"))
  else
    match upstream with
    | .error code => .error (.httpStatusError code)
    | .ok raws => .ok (raws.map parseTransition)

/-- The transition-matching loop of `change_ticket_status`
(jira_service.py lines 140-145), with Python's evaluation order:
`transition["to"]["name"].lower()` is evaluated first and raises
`AttributeError` when the value is `None`; only if that comparison is `False`
is `transition["name"].lower()` evaluated, with the same failure mode.
Returns the first match, `none` when the scan completes without a match. -/
def findTransitionLoop : List Transition → String → Except PyError (Option Transition)
  | [], _ => .ok none
  | t :: ts, status_name =>
    match t.toStatus.name with
    | none => .error .attributeError
    | some toName =>
      if pyLower toName == pyLower status_name then .ok (some t)
      else
        match t.name with
        | none => .error .attributeError
        | some nm =>
          if pyLower nm == pyLower status_name then .ok (some t)
          else findTransitionLoop ts status_name

/-- Specification-side matching predicate: the desired name case-insensitively
equals the transition's target-status name or its action name (a missing name
matches nothing). -/
def matchesName (t : Transition) (status_name : String) : Bool :=
  (match t.toStatus.name with
   | some n => pyLower n == pyLower status_name
   | none => false) ||
  (match t.name with
   | some n => pyLower n == pyLower status_name
   | none => false)

/-- Python `repr` of an `Optional[str]` as it appears inside a formatted list. -/
def pyReprOptStr : Option String → String
  | none => "None"
  | some s => "\x27" ++ s ++ "\x27"

/-- Python `str` of a list of `Optional[str]` values. -/
def pyReprList (xs : List (Option String)) : String :=
  "[" ++ String.intercalate (", ") (xs.map pyReprOptStr) ++ "]"

/-- The `ValueError` message raised when no transition matches
(jira_service.py lines 150-154): it interpolates the desired status, the
ticket key, the list of all target-status names and the list of all action
names. -/
def transitionNotFoundMessage (status_name ticket_key : String)
    (available_statuses available_transitions : List (Option String)) : String :=
  "Status \x27" ++ status_name ++ "\x27 not available for ticket " ++ ticket_key ++
  ". Available statuses: " ++ pyReprList available_statuses ++
  ". Available transitions: " ++ pyReprList available_transitions

/-- The `ticket` part of the success record of `change_ticket_status`. -/
structure ChangeTicketView where
  key : Option String := none
  status : Option String := none
  summary : Option String := none
  deriving DecidableEq

/-- The outcome record of `change_ticket_status`. -/
structure ChangeResult where
  success : Bool
  message : String
  ticket : Option ChangeTicketView := none
  deriving DecidableEq

/-- `JiraService.change_ticket_status` (jira_service.py lines 127-187).
Upstream interactions are passed in: `transUpstream` is the
`GET /issue/{key}/transitions` outcome, `postStatus` the status code of the
`POST /issue/{key}/transitions`, `refetch` the outcome of the `get_ticket`
re-fetch (error status from `raise_for_status`, or the raw issue).
`raise_for_status` on the POST raises exactly for status codes in [400, 600);
any other non-204 status falls through to the
`{"success": False, "message": "Unknown error occurred"}` return. -/
def change_ticket_status (ticket_key status_name : String)
    (transUpstream : Except Nat (List RawTransition))
    (postStatus : Nat)
    (refetch : Except Nat RawIssue) : Except PyError ChangeResult :=
  if pyIsBlank ticket_key then .error (.valueError ("ticket_key is required"))
  else if pyIsBlank status_name then .error (.valueError ("status_name is required"))
  else
    match get_available_transitions ticket_key transUpstream with
    | .error e => .error e
    | .ok transitions =>
      match findTransitionLoop transitions status_name with
      | .error e => .error e
      | .ok none =>
        .error (.valueError (transitionNotFoundMessage status_name ticket_key
          (transitions.map (fun t => t.toStatus.name))
          (transitions.map (fun t => t.name))))
      | .ok (some _) =>
        if postStatus = 204 then
          match refetch with
          | .error code => .error (.httpStatusError code)
          | .ok raw =>
            let updated_ticket := _parse_ticket raw
            .ok { success := true
                  message := "Status changed to " ++ status_name
                  ticket := some
                    { key := updated_ticket.key
                      status := (updated_ticket.fields.bind (fun f => f.status)).bind
                        (fun st => st.name)
                      summary := updated_ticket.fields.bind (fun f => f.summary) } }
        else if 400 ≤ postStatus ∧ postStatus < 600 then
          .error (.httpStatusError postStatus)
        else
          .ok { success := false, message := "Unknown error occurred", ticket := none }

/-- One upstream `GET /search` request: the `jql` and `maxResults` parameters
actually sent. -/
structure SearchCall where
  jql : String
  maxResults : Int
  deriving DecidableEq

/-- `JiraService.search_tickets` (jira_service.py lines 36-64), instrumented
with the list of upstream search calls issued (empty when validation fails
before the request).  `upstream` maps the sent parameters to the outcome:
an error status or the raw `issues` array. -/
def search_tickets (jql_query : String) (max_results : Option Int)
    (upstream : String → Int → Except Nat (List RawIssue)) :
    Except PyError (List JiraTicket) × List SearchCall :=
  if pyIsBlank jql_query then
    (.error (.valueError ("jql_query is required")), [])
  else
    let limit : Int := match max_results with | some n => n | none => 50
    match upstream jql_query limit with
    | .error code => (.error (.httpStatusError code), [{ jql := jql_query, maxResults := limit }])
    | .ok issues => (.ok (issues.map _parse_ticket), [{ jql := jql_query, maxResults := limit }])

/-- The fixed JQL of `get_recently_updated_tickets` (jira_service.py line 97). -/
def recentJql : String := "updated >= -7d ORDER BY updated DESC"

/-- `JiraService.get_recently_updated_tickets` (jira_service.py lines 93-98). -/
def get_recently_updated_tickets (max_results : Option Int)
    (upstream : String → Int → Except Nat (List RawIssue)) :
    Except PyError (List JiraTicket) × List SearchCall :=
  search_tickets recentJql max_results upstream

/-- Python `str(e)` for each modelled exception.  `str` of a `ValueError` is
its message; Starlette's `HTTPException.__str__` renders "code: detail";
a `requests.HTTPError` message is abbreviated to its status code (no theorem
depends on its exact text). -/
def pyStr : PyError → String
  | .valueError msg => msg
  | .httpStatusError code => "HTTP error " ++ Nat.repr code
  | .httpException code detail => Nat.repr code ++ (": ") ++ detail
  | .attributeError => "\x27NoneType\x27 object has no attribute \x27lower\x27"

/-- Outcome of a FastAPI route handler: a 200 JSON body, or
`HTTPException(status_code, detail)`. -/
inductive RouteResult (α : Type) where
  | ok (body : α)
  | httpError (status : Nat) (detail : String)
  deriving DecidableEq

/-- The HTTP status of a route outcome (a plain return is a 200). -/
def RouteResult.statusCode {α : Type} : RouteResult α → Nat
  | .ok _ => 200
  | .httpError code _ => code

/-- The summary projection `format_ticket_summary` (http_jira_server.py
lines 30-39). -/
structure TicketSummaryView where
  key : Option String := none
  id : Option String := none
  summary : Option String := none
  status : Option String := none
  assignee : Option String := none
  updated : Option String := none
  deriving DecidableEq

/-- `format_ticket_summary` (http_jira_server.py lines 30-39): each
`ticket.fields and ...` truthiness chain becomes an `Option.bind` chain. -/
def format_ticket_summary (ticket : JiraTicket) : TicketSummaryView :=
  { key := ticket.key
    id := ticket.id
    summary := ticket.fields.bind (fun f => f.summary)
    status := (ticket.fields.bind (fun f => f.status)).bind (fun st => st.name)
    assignee := (ticket.fields.bind (fun f => f.assignee)).bind (fun a => a.display_name)
    updated := ticket.fields.bind (fun f => f.updated) }

/-- The `GET /api/jira/tickets/search` handler (http_jira_server.py
lines 106-116): every exception raised inside the `try` — including the
`ValueError` for a blank `jql` — is caught by the single
`except Exception` clause and re-raised as `HTTPException(500, str(e))`. -/
def route_search_tickets (jql : String) (limit : Int)
    (upstream : String → Int → Except Nat (List RawIssue)) :
    RouteResult (List TicketSummaryView) :=
  match (search_tickets jql (some limit) upstream).1 with
  | .ok tickets => .ok (tickets.map format_ticket_summary)
  | .error e => .httpError 500 (pyStr e)

/-- The `POST /api/jira/ticket/{ticket_key}/status` handler
(http_jira_server.py lines 157-173).  `request.get("status")` is `reqStatus`;
a missing or empty value fails the truthiness test and raises
`HTTPException(400, "status is required")` — which, being raised inside the
`try`, is caught by `except Exception` (it is not a `ValueError`) and
re-raised as a 500.  A `ValueError` from the service maps to a 400; any other
exception maps to a 500. -/
def route_change_ticket_status (ticket_key : String) (reqStatus : Option String)
    (transUpstream : Except Nat (List RawTransition)) (postStatus : Nat)
    (refetch : Except Nat RawIssue) : RouteResult ChangeResult :=
  let body : Except PyError ChangeResult :=
    match reqStatus with
    | none => .error (.httpException 400 ("status is required"))
    | some status_name =>
      if status_name == "" then .error (.httpException 400 ("status is required"))
      else change_ticket_status ticket_key status_name transUpstream postStatus refetch
  match body with
  | .ok result => .ok result
  | .error (.valueError msg) => .httpError 400 msg
  | .error e => .httpError 500 (pyStr e)

/-- A tool declaration: its name and its schema's `required` argument list. -/
structure ToolDecl where
  name : String
  required : List String
  deriving DecidableEq

/-- The six tools declared by `handle_list_tools` of the stdio MCP adapter
(mcp_jira_server.py lines 31-136), in source order. -/
def stdio_list_tools : List ToolDecl :=
  [{ name := "get_ticket", required := ["ticket_key"] },
   { name := "search_tickets", required := ["jql_query"] },
   { name := "search_tickets_by_text", required := ["text"] },
   { name := "get_tickets_by_project", required := ["project_key"] },
   { name := "get_my_assigned_tickets", required := [] },
   { name := "get_recently_updated_tickets", required := [] }]

/-- The tool names dispatched by `handle_call_tool` of the stdio MCP adapter
(mcp_jira_server.py lines 139-247), in the order of its `if`/`elif` chain. -/
def stdio_call_tool_names : List String :=
  ["get_ticket", "search_tickets", "search_tickets_by_text",
   "get_tickets_by_project", "get_my_assigned_tickets", "get_recently_updated_tickets"]

/-- The eight tools declared by the `tools/list` branch of `mcp_rpc_endpoint`
(http_jira_server.py lines 202-302), in source order. -/
def http_rpc_tools : List ToolDecl :=
  [{ name := "get_ticket", required := ["ticket_key"] },
   { name := "search_tickets", required := ["jql_query"] },
   { name := "search_tickets_by_text", required := ["text"] },
   { name := "get_tickets_by_project", required := ["project_key"] },
   { name := "get_my_assigned_tickets", required := [] },
   { name := "get_recently_updated_tickets", required := [] },
   { name := "get_ticket_transitions", required := ["ticket_key"] },
   { name := "change_ticket_status", required := ["ticket_key", "status_name"] }]

/-- The tool names dispatched by the `tools/call` branch of `mcp_rpc_endpoint`
(http_jira_server.py lines 304-359), in the order of its `if`/`elif` chain. -/
def http_rpc_call_tool_names : List String :=
  ["get_ticket", "search_tickets", "search_tickets_by_text",
   "get_tickets_by_project", "get_my_assigned_tickets", "get_recently_updated_tickets",
   "get_ticket_transitions", "change_ticket_status"]

/-- The eight issue-service routes of the FastAPI adapter
(http_jira_server.py), one per logical operation, in source order
(the `/health` probe is not an issue-service operation). -/
def http_route_paths : List String :=
  ["/api/jira/tickets/recent",
   "/api/jira/tickets/assigned",
   "/api/jira/tickets/project/\x7bproject_key\x7d",
   "/api/jira/tickets/search",
   "/api/jira/tickets/search/text",
   "/api/jira/ticket/\x7bticket_key\x7d",
   "/api/jira/ticket/\x7bticket_key\x7d/transitions",
   "/api/jira/ticket/\x7bticket_key\x7d/status"]

deriving instance DecidableEq for Except

/-- The two-transition list of the spec example ("Start Progress" and "Block",
both targeting "In Progress"). -/
def exampleTransitions : List Transition :=
  [{ id := some "1", name := some "Start Progress", toStatus := { name := some "In Progress" } },
   { id := some "2", name := some "Block", toStatus := { name := some "In Progress" } }]

/-- A raw upstream transitions payload with a single transition whose target
status and action name match "Done". -/
def doneTransitionRaw : List RawTransition :=
  [{ id := some "11", name := some "Done", toStatus := some { name := some "Done" } }]

/-- A raw upstream transitions payload whose only entry matches neither the
target-status nor the action-name test for "Done". -/
def startProgressRaw : List RawTransition :=
  [{ id := some "1", name := some "Start Progress", toStatus := some { name := some "In Progress" } }]

/-- A raw upstream transition with no `name` and no `to` object: after
`get_available_transitions`, both normalized names are `None`. -/
def nullNamesTransitionRaw : RawTransition := { id := some "5" }

/-- A re-fetched raw issue used to exercise the success path of
`change_ticket_status`. -/
def refetchedDoneIssue : RawIssue :=
  { key := some "PROJ-1",
    fields := some { summary := some "Fix the bug", status := some { name := some "Done" } } }

/-- A raw issue whose "fields" key is present but null. -/
def nullFieldsIssue : RawIssueJson := { key := some "K-2", fields := some none }

/-- A raw issue whose `fields` dict carries a summary but no assignee. -/
def noAssigneeIssueJson : RawIssueJson :=
  { id := some "1", key := some "K-1",
    fields := some (some { summary := some "A summary" }) }

/-- An upstream search oracle that always answers with an empty issue list. -/
def emptyUpstream : String → Int → Except Nat (List RawIssue) := fun _ _ => .ok []

/-- The matching loop, on a list whose transitions all carry both names,
returns exactly the first transition satisfying the either-field
case-insensitive test (`List.find?` is first-match-in-list-order). -/
theorem findTransitionLoop_eq_find (ts : List Transition) (status_name : String)
    (h : ∀ t ∈ ts, t.toStatus.name.isSome ∧ t.name.isSome) :
    findTransitionLoop ts status_name = .ok (ts.find? (fun t => matchesName t status_name)) := by
  induction ts with
  | nil => simp [findTransitionLoop]
  | cons t ts ih =>
    obtain ⟨hto, hnm⟩ := h t (List.mem_cons_self t ts)
    obtain ⟨a, ha⟩ := Option.isSome_iff_exists.mp hto
    obtain ⟨b, hb⟩ := Option.isSome_iff_exists.mp hnm
    have hrest : ∀ x ∈ ts, x.toStatus.name.isSome ∧ x.name.isSome :=
      fun x hx => h x (List.mem_cons_of_mem t hx)
    by_cases h1 : (pyLower a == pyLower status_name) = true
    · simp [findTransitionLoop, List.find?, matchesName, ha, hb, h1]
    · by_cases h2 : (pyLower b == pyLower status_name) = true
      · simp [findTransitionLoop, List.find?, matchesName, ha, hb, h1, h2]
      · simp [findTransitionLoop, List.find?, matchesName, ha, hb, h1, h2, ih hrest]

/-- C1: for every list of available transitions (in upstream order, all
carrying a target-status name and an action name) and every desired status
name, the matching loop of `change_ticket_status` returns exactly the first
transition in list order whose target-status name or action name equals the
desired name case-insensitively (`List.find?` returns the earliest match, so
when several transitions match, the earlier one in upstream order wins). -/
theorem c1_resolver_first_match (ts : List Transition) (status_name : String)
    (h : ∀ t ∈ ts, t.toStatus.name.isSome ∧ t.name.isSome) :
    findTransitionLoop ts status_name = .ok (ts.find? (fun t => matchesName t status_name)) :=
  findTransitionLoop_eq_find ts status_name h

/-- Witness for C1 at the spec's example: transitions "Start Progress" and
"Block", both targeting "In Progress", with desired name "in progress"; the
resolver picks the first ("Start Progress"). -/
theorem c1_resolver_first_match_witness :
    (∀ t ∈ exampleTransitions, t.toStatus.name.isSome ∧ t.name.isSome) ∧
    findTransitionLoop exampleTransitions ("in progress") =
      .ok (exampleTransitions.find? (fun t => matchesName t ("in progress"))) ∧
    exampleTransitions.find? (fun t => matchesName t ("in progress")) =
      some { id := some "1", name := some "Start Progress",
             toStatus := { name := some "In Progress" } } :=
  ⟨by decide,
   c1_resolver_first_match exampleTransitions ("in progress") (by decide),
   by decide⟩

/-- C2: when the ticket key and desired status are non-blank, every available
transition carries both names, and no transition matches the desired name by
either field, `change_ticket_status` raises the `ValueError` whose message
enumerates exactly the list of all target-status names and exactly the list of
all action names of the available transitions. -/
theorem c2_not_found_enumerates (ticket_key status_name : String)
    (raws : List RawTransition)
    (hk : pyIsBlank ticket_key = false) (hs : pyIsBlank status_name = false)
    (hnames : ∀ t ∈ raws.map parseTransition, t.toStatus.name.isSome ∧ t.name.isSome)
    (hnomatch : ∀ t ∈ raws.map parseTransition, matchesName t status_name = false)
    (postStatus : Nat) (refetch : Except Nat RawIssue) :
    change_ticket_status ticket_key status_name (.ok raws) postStatus refetch =
      .error (.valueError (transitionNotFoundMessage status_name ticket_key
        ((raws.map parseTransition).map (fun t => t.toStatus.name))
        ((raws.map parseTransition).map (fun t => t.name)))) := by
  have hloop : findTransitionLoop (raws.map parseTransition) status_name =
      .ok ((raws.map parseTransition).find? (fun t => matchesName t status_name)) :=
    findTransitionLoop_eq_find _ _ hnames
  have hfind : (raws.map parseTransition).find? (fun t => matchesName t status_name) = none := by
    rw [List.find?_eq_none]
    intro x hx
    simp [hnomatch x hx]
  simp [change_ticket_status, get_available_transitions, hk, hs, hloop, hfind]

/-- Witness for C2 at the spec's example: desired "Done" against a single
transition "Start Progress" targeting "In Progress"; the error enumerates the
`to.name` values and the `name` values present. -/
theorem c2_not_found_enumerates_witness :
    change_ticket_status ("PROJ-1") ("Done") (.ok startProgressRaw) 204 (.error 500) =
      .error (.valueError (transitionNotFoundMessage ("Done") ("PROJ-1")
        [some "In Progress"] [some "Start Progress"])) :=
  c2_not_found_enumerates ("PROJ-1") ("Done") startProgressRaw
    (by decide) (by decide) (by decide) (by decide) 204 (.error 500)

/-- C9: the transition comparison calls `.lower()` on the normalized names
without a null guard.  `get_available_transitions` defaults missing upstream
fields to `None`, so a transition with no upstream `name`/`to` yields
normalized names `None`; scanning such a list raises `AttributeError`
(`.error .attributeError`) instead of the `TransitionNotFound` `ValueError`
— shown end to end through `change_ticket_status`. -/
theorem c9_null_name_attribute_error :
    parseTransition nullNamesTransitionRaw =
      { id := some "5", name := none, toStatus := { name := none, description := none } } ∧
    findTransitionLoop [parseTransition nullNamesTransitionRaw] ("Done") =
      .error .attributeError ∧
    change_ticket_status ("PROJ-1") ("Done") (.ok [nullNamesTransitionRaw]) 204
        (.ok { key := some "PROJ-1" }) =
      .error .attributeError := by
  decide

/-- Counterexample to C3: with a resolvable transition and non-blank
arguments, an upstream POST status of 200 — a possible upstream outcome that
is neither the 204 no-content acknowledgement nor an error status that
`raise_for_status` would raise — makes `change_ticket_status` return the
record `{success: False, message: "Unknown error occurred"}` instead of
propagating an upstream failure as an error. -/
theorem c3_unknown_error_counterexample :
    change_ticket_status ("PROJ-1") ("Done") (.ok doneTransitionRaw) 200
        (.ok refetchedDoneIssue) =
      .ok { success := false, message := "Unknown error occurred", ticket := none } := by
  decide

/-- C3 (amended): with non-blank arguments and a resolvable transition,
`change_ticket_status` (1) on POST status 204 re-fetches and returns a success
record carrying the re-fetched ticket's key, status name and summary, (2) on
POST status 204 with a failing re-fetch propagates the re-fetch failure,
(3) on a POST status in [400, 600) propagates the upstream failure, and
(4) on any other POST status returns `{success: False, message: "Unknown
error occurred"}` without claiming success and without raising. -/
theorem c3_outcomes (ticket_key status_name : String)
    (hk : pyIsBlank ticket_key = false) (hs : pyIsBlank status_name = false)
    (raws : List RawTransition) (t : Transition)
    (hres : findTransitionLoop (raws.map parseTransition) status_name = .ok (some t))
    (postStatus : Nat) (refetch : Except Nat RawIssue) :
    (postStatus = 204 → ∀ raw : RawIssue, refetch = .ok raw →
      change_ticket_status ticket_key status_name (.ok raws) postStatus refetch =
        .ok { success := true
              message := "Status changed to " ++ status_name
              ticket := some
                { key := (_parse_ticket raw).key
                  status := ((_parse_ticket raw).fields.bind (fun f => f.status)).bind
                    (fun st => st.name)
                  summary := (_parse_ticket raw).fields.bind (fun f => f.summary) } }) ∧
    (postStatus = 204 → ∀ code : Nat, refetch = .error code →
      change_ticket_status ticket_key status_name (.ok raws) postStatus refetch =
        .error (.httpStatusError code)) ∧
    (400 ≤ postStatus → postStatus < 600 →
      change_ticket_status ticket_key status_name (.ok raws) postStatus refetch =
        .error (.httpStatusError postStatus)) ∧
    (postStatus ≠ 204 → ¬(400 ≤ postStatus ∧ postStatus < 600) →
      change_ticket_status ticket_key status_name (.ok raws) postStatus refetch =
        .ok { success := false, message := "Unknown error occurred", ticket := none }) := by
  refine ⟨?_, ?_, ?_, ?_⟩
  · rintro rfl raw rfl
    simp [change_ticket_status, get_available_transitions, hk, hs, hres]
  · rintro rfl code rfl
    simp [change_ticket_status, get_available_transitions, hk, hs, hres]
  · intro h4 h6
    have h204 : postStatus ≠ 204 := by omega
    simp [change_ticket_status, get_available_transitions, hk, hs, hres, h204, h4, h6]
  · intro h204 hrange
    simp [change_ticket_status, get_available_transitions, hk, hs, hres, h204, hrange]

/-- Witness for C3 (amended), success branch: POST status 204 and a
successful re-fetch yield the success record with the re-fetched key, status
name and summary. -/
theorem c3_outcomes_witness :
    change_ticket_status ("PROJ-1") ("Done") (.ok doneTransitionRaw) 204
        (.ok refetchedDoneIssue) =
      .ok { success := true, message := "Status changed to Done",
            ticket := some { key := some "PROJ-1", status := some "Done",
                             summary := some "Fix the bug" } } := by
  have h := (c3_outcomes ("PROJ-1") ("Done") (by decide) (by decide) doneTransitionRaw
    { id := some "11", name := some "Done", toStatus := { name := some "Done" } }
    (by decide) 204 (.ok refetchedDoneIssue)).1 rfl refetchedDoneIssue rfl
  exact h

/-- Counterexample to C4: the claim says both protocol adapters expose the
same eight logical operations, but the change-status operation is declared by
the HTTP RPC adapter and not by the stdio adapter (`handle_list_tools`), and
likewise for list-transitions. -/
theorem c4_adapters_counterexample :
    ("change_ticket_status" ∈ http_rpc_tools.map ToolDecl.name) ∧
    ("change_ticket_status" ∉ stdio_list_tools.map ToolDecl.name) ∧
    ("get_ticket_transitions" ∈ http_rpc_tools.map ToolDecl.name) ∧
    ("get_ticket_transitions" ∉ stdio_list_tools.map ToolDecl.name) := by
  decide

/-- C4 (amended): the route adapter and the HTTP RPC adapter each expose the
eight logical operations; the stdio RPC adapter declares and dispatches only
six of them (get, search, search-by-text, by-project, assigned-to-me,
recent), omitting list-transitions and change-status. -/
theorem c4_adapters_amended :
    stdio_list_tools.map ToolDecl.name = stdio_call_tool_names ∧
    http_rpc_tools.map ToolDecl.name = http_rpc_call_tool_names ∧
    stdio_list_tools.length = 6 ∧
    http_rpc_tools.length = 8 ∧
    http_route_paths.length = 8 ∧
    (∀ n ∈ stdio_list_tools.map ToolDecl.name, n ∈ http_rpc_tools.map ToolDecl.name) := by
  decide

/-- Counterexample to C5: a blank `jql` on the search route is surfaced as a
500 server-error response, not a 4xx client error — the route's single
`except Exception` handler converts the validation `ValueError` into
`HTTPException(500, str(e))`. -/
theorem c5_blank_jql_counterexample :
    route_search_tickets (" ") 10 emptyUpstream = .httpError 500 ("jql_query is required") ∧
    ¬(400 ≤ (route_search_tickets (" ") 10 emptyUpstream).statusCode ∧
      (route_search_tickets (" ") 10 emptyUpstream).statusCode < 500) := by
  decide

/-- C5 (amended): a blank-after-trimming `jql` on the search route surfaces
as a 500 (the generic handler swallows the `ValueError`); on the change-status
route a present, non-empty but blank-after-trimming status surfaces as a 400
via the `except ValueError` handler, while an absent or empty status surfaces
as a 500 (the locally raised 400 `HTTPException` is caught by
`except Exception` and re-raised with status 500). -/
theorem c5_blank_arguments (jql : String) (limit : Int)
    (u : String → Int → Except Nat (List RawIssue))
    (hblank : pyIsBlank jql = true)
    (ticket_key status_name : String)
    (hk : pyIsBlank ticket_key = false)
    (hsne : status_name ≠ "") (hsblank : pyIsBlank status_name = true)
    (transUpstream : Except Nat (List RawTransition)) (postStatus : Nat)
    (refetch : Except Nat RawIssue) :
    route_search_tickets jql limit u = .httpError 500 ("jql_query is required") ∧
    route_change_ticket_status ticket_key (some status_name) transUpstream postStatus refetch =
      .httpError 400 ("status_name is required") ∧
    route_change_ticket_status ticket_key none transUpstream postStatus refetch =
      .httpError 500 (pyStr (.httpException 400 ("status is required"))) ∧
    route_change_ticket_status ticket_key (some "") transUpstream postStatus refetch =
      .httpError 500 (pyStr (.httpException 400 ("status is required"))) := by
  refine ⟨?_, ?_, ?_, ?_⟩
  · simp [route_search_tickets, search_tickets, hblank, pyStr]
  · have hne : (status_name == "") = false := by simp [hsne]
    simp [route_change_ticket_status, hne, change_ticket_status, hk, hsblank, pyStr]
  · simp [route_change_ticket_status]
  · simp [route_change_ticket_status]

/-- Witness for C5 (amended) at jql = " ", ticket "PROJ-1", status " ". -/
theorem c5_blank_arguments_witness :
    route_search_tickets (" ") 10 emptyUpstream = .httpError 500 ("jql_query is required") ∧
    route_change_ticket_status ("PROJ-1") (some " ") (.ok []) 204 (.error 500) =
      .httpError 400 ("status_name is required") ∧
    route_change_ticket_status ("PROJ-1") none (.ok []) 204 (.error 500) =
      .httpError 500 (pyStr (.httpException 400 ("status is required"))) ∧
    route_change_ticket_status ("PROJ-1") (some "") (.ok []) 204 (.error 500) =
      .httpError 500 (pyStr (.httpException 400 ("status is required"))) :=
  c5_blank_arguments (" ") 10 emptyUpstream (by decide) ("PROJ-1") (" ")
    (by decide) (by decide) (by decide) (.ok []) 204 (.error 500)

/-- Counterexample to C6: the claim covers every "absent or null" optional
sub-object, `fields` included, and says no error is raised — but on a raw
issue whose "fields" key is present and null the parser raises
`AttributeError`: `data.get("fields", {})` returns the null (the default
applies only to a missing key) and `fields_data.get("status")` crashes on
it. -/
theorem c6_null_fields_counterexample :
    _parse_ticket_json nullFieldsIssue = .error .attributeError := by decide

/-- C6 (amended): a present-null `fields` raises `AttributeError`; every
other raw issue parses without error, the parsed Ticket's fields record is
present (for an absent `fields` it is the all-`None` record of C10, not
`None`), and each nested optional sub-object (status, priority, issuetype,
assignee, reporter) that is absent or null yields `None` for the
corresponding field; in particular a raw issue missing `fields.assignee`
parses to a Ticket whose assignee is absent. -/
theorem c6_parse_tolerant_amended (data : RawIssueJson) :
    (data.fields = some none → _parse_ticket_json data = .error .attributeError) ∧
    (data.fields ≠ some none → ∃ t : JiraTicket, _parse_ticket_json data = .ok t) ∧
    (∀ t : JiraTicket, _parse_ticket_json data = .ok t →
      (t.fields).isSome = true ∧
      (data.fields.join.bind (fun rf => rf.status) = none →
        t.fields.bind (fun f => f.status) = none) ∧
      (data.fields.join.bind (fun rf => rf.priority) = none →
        t.fields.bind (fun f => f.priority) = none) ∧
      (data.fields.join.bind (fun rf => rf.issuetype) = none →
        t.fields.bind (fun f => f.issuetype) = none) ∧
      (data.fields.join.bind (fun rf => rf.assignee) = none →
        t.fields.bind (fun f => f.assignee) = none) ∧
      (data.fields.join.bind (fun rf => rf.reporter) = none →
        t.fields.bind (fun f => f.reporter) = none)) := by
  cases data with
  | mk i k s flds =>
    match flds with
    | some none =>
      refine ⟨fun _ => rfl, fun h => absurd rfl h, ?_⟩
      intro t ht
      simp [_parse_ticket_json] at ht
    | some (some rf) =>
      refine ⟨fun h => by simp at h, fun _ => ⟨_, rfl⟩, ?_⟩
      intro t ht
      simp only [_parse_ticket_json, Except.ok.injEq] at ht
      subst ht
      refine ⟨by simp [_parse_ticket], ?_, ?_, ?_, ?_, ?_⟩ <;>
        (intro h; simp at h; simp [_parse_ticket, h])
    | none =>
      refine ⟨fun h => by simp at h, fun _ => ⟨_, rfl⟩, ?_⟩
      intro t ht
      simp only [_parse_ticket_json, Except.ok.injEq] at ht
      subst ht
      simp [_parse_ticket]

/-- Witness for C6 (amended): the present-null-`fields` issue raises
`AttributeError`, while the issue with a summary but no assignee parses to a
Ticket with a present fields record and an absent assignee. -/
theorem c6_parse_tolerant_amended_witness :
    _parse_ticket_json nullFieldsIssue = .error .attributeError ∧
    (∃ t : JiraTicket, _parse_ticket_json noAssigneeIssueJson = .ok t ∧
      (t.fields).isSome = true ∧ t.fields.bind (fun f => f.assignee) = none) := by
  constructor
  · exact (c6_parse_tolerant_amended nullFieldsIssue).1 rfl
  · obtain ⟨t, ht⟩ := (c6_parse_tolerant_amended noAssigneeIssueJson).2.1 (by decide)
    have h3 := (c6_parse_tolerant_amended noAssigneeIssueJson).2.2 t ht
    exact ⟨t, ht, h3.1, h3.2.2.2.2.1 (by decide)⟩

/-- C7: for every limit `n`, `get_recently_updated_tickets` issues exactly one
upstream search whose JQL is the fixed 7-day-updated window ordered descending
by update time, and whose `maxResults` parameter equals `n` (whatever the
upstream outcome is). -/
theorem c7_recent_query (n : Int) (upstream : String → Int → Except Nat (List RawIssue)) :
    (get_recently_updated_tickets (some n) upstream).2 =
      [{ jql := recentJql, maxResults := n }] ∧
    recentJql = "updated >= -7d ORDER BY updated DESC" := by
  constructor
  · have hb : pyIsBlank recentJql = false := by decide
    simp only [get_recently_updated_tickets, search_tickets, hb, Bool.false_eq_true, if_false]
    cases upstream recentJql n <;> simp
  · rfl

/-- C8: for every jql string that is empty or blank after trimming and for any
limit value, `search_tickets` fails with the `ValueError` naming `jql_query`
and issues no upstream call (the recorded call list is empty). -/
theorem c8_blank_jql_no_upstream (jql : String) (max_results : Option Int)
    (upstream : String → Int → Except Nat (List RawIssue))
    (h : pyIsBlank jql = true) :
    search_tickets jql max_results upstream =
      (.error (.valueError ("jql_query is required")), []) := by
  simp [search_tickets, h]

/-- Witness for C8 at the spec's boundary example `search(jql="", limit=10)`. -/
theorem c8_blank_jql_no_upstream_witness :
    search_tickets ("") (some 10) emptyUpstream =
      (.error (.valueError ("jql_query is required")), []) :=
  c8_blank_jql_no_upstream ("") (some 10) emptyUpstream (by decide)

/-- C10: for every raw issue mapping — including one with no `fields` entry —
parsing returns a Ticket whose fields record is present (never `none`); a
missing `fields` sub-object yields a Fields record with every leaf `none`. -/
theorem c10_fields_record_always_present (raw : RawIssue) :
    ((_parse_ticket raw).fields).isSome = true ∧
    (raw.fields = none →
      (_parse_ticket raw).fields =
        some { summary := none, description := none, status := none, priority := none,
               issuetype := none, assignee := none, reporter := none, created := none,
               updated := none }) := by
  cases raw with
  | mk i k s flds => cases flds <;> simp [_parse_ticket]

/-- Witness for C10 at the raw issue with no fields entry at all. -/
theorem c10_fields_record_always_present_witness :
    ((_parse_ticket { }).fields).isSome = true ∧
    (_parse_ticket { }).fields =
      some { summary := none, description := none, status := none, priority := none,
             issuetype := none, assignee := none, reporter := none, created := none,
             updated := none } := by
  have h := c10_fields_record_always_present { }
  exact ⟨h.1, h.2 rfl⟩
